import Mathlib

/-!
Verification of the hemu RISC-V emulator / co-simulation harness.

This file shallowly embeds the parts of the hemu source that the audited
claims are about, and proves or refutes each claim against that embedding.

Source layout referenced throughout:
- src/emulator.rs     : DebugInfo retirement record and its PartialEq
- src/dut.rs          : DUT adapter store-size extraction (extend_to_64, get_size)
- src/cpu.rs          : the CPU core (decode, execute, translate, CSR arms)
- src/cpu/gpr.rs      : integer register file construction
Modules declared but missing from the tree (bus.rs, exception.rs,
devices/dram.rs, cpu/csr.rs) are modelled from the specification; every
such definition is marked with a doc comment starting with
`Modelled from the spec:`.

Machine integers are embedded as Nat with explicit reductions modulo
2 ^ 64 (or 2 ^ 32) where the Rust code wraps; signed views are Int.
-/

namespace Hemu

set_option maxRecDepth 100000

/-- The value 2 ^ 64, the modulus of Rust u64 arithmetic. -/
def U64 : Nat := 2 ^ 64

/-- Signed reinterpretation of a u64 bit pattern (Rust `as i64`). -/
def toSigned64 (n : Nat) : Int :=
  if n % U64 < 2 ^ 63 then ((n % U64 : Nat) : Int) else ((n % U64 : Nat) : Int) - 2 ^ 64

/-- Unsigned reinterpretation of an i64 value (Rust `as u64`), i.e. the
value modulo 2 ^ 64 as a natural number. -/
def toUnsigned64 (i : Int) : Nat := (i % (2 ^ 64 : Int)).toNat

/-- Signed reinterpretation of the low 32 bits of a u64 (Rust `as i32`). -/
def toSigned32 (n : Nat) : Int :=
  if n % 2 ^ 32 < 2 ^ 31 then ((n % 2 ^ 32 : Nat) : Int) else ((n % 2 ^ 32 : Nat) : Int) - 2 ^ 32

/-- Bit i of x, as a Nat (0 or 1). -/
def getBit (x i : Nat) : Nat := (x >>> i) &&& 1

/-- Write the single bit i of x to v (low bit of v), keeping all other
bits; used to embed the Csr write_bit / write_mstatus field helpers. -/
def writeBitN (x i v : Nat) : Nat :=
  (x / 2 ^ (i + 1)) * 2 ^ (i + 1) + (v % 2) * 2 ^ i + x % 2 ^ i

/- ============================================================
   C1. The retirement record compared by the difftest driver.
   Embeds src/emulator.rs lines 22-42.
   ============================================================ -/

/-- The retirement record of src/emulator.rs (struct DebugInfo): commit
flag, program counter, destination register number, written value. -/
structure DebugInfo where
  commit : Bool
  pc : Nat
  wnum : Nat
  wdata : Nat
  deriving Repr, DecidableEq

/-- The PartialEq implementation of src/emulator.rs lines 36-40: it
compares commit, pc, wnum and wdata, with no special case whatsoever. -/
def DebugInfo.eqv (a b : DebugInfo) : Bool :=
  a.commit == b.commit && a.pc == b.pc && a.wnum == b.wnum && a.wdata == b.wdata

/- ============================================================
   C9. DUT adapter store-size extraction.
   Embeds src/dut.rs lines 9-15 and 73-82.
   ============================================================ -/

/-- Bus width constant BYTE = 8 bits (src/cpu.rs line 33). -/
def BYTE : Nat := 8

/-- Bus width constant HALFWORD = 16 bits (src/cpu.rs line 35). -/
def HALFWORD : Nat := 16

/-- Bus width constant WORD = 32 bits (src/cpu.rs line 37). -/
def WORD : Nat := 32

/-- Bus width constant DOUBLEWORD = 64 bits (src/cpu.rs line 39). -/
def DOUBLEWORD : Nat := 64

/-- Loop body of extend_to_64 (src/dut.rs lines 9-15): after `fuel`
iterations, ans holds the OR over i < fuel of ((n >> i) & 1) * 0xff
shifted to byte position i. -/
def extendLoop (n : Nat) : Nat → Nat
  | 0 => 0
  | i + 1 => extendLoop n i ||| ((((n >>> i) &&& 1) * 0xff) <<< (i * 8))

/-- extend_to_64 of src/dut.rs: replicate each set mask bit of the 8-bit
write-enable into a full 0xff byte at that byte position. -/
def extend_to_64 (n : Nat) : Nat := extendLoop n 8

/-- Bounded-fuel trailing-zero counter; tzGo n 8 equals Rust
u8::trailing_zeros(n) for n < 256 (8 when n = 0). -/
def tzGo : Nat → Nat → Nat
  | _, 0 => 0
  | n, fuel + 1 => if n % 2 = 1 then 0 else 1 + tzGo (n / 2) fuel

/-- Rust u8::trailing_zeros, used by Dut::get_size (src/dut.rs line 75). -/
def trailingZeros8 (n : Nat) : Nat := tzGo n 8

/-- Dut::get_size (src/dut.rs lines 73-82): the write-enable mask is
first shifted right by its trailing-zero count, and the result is
matched against 0b1 / 0b11 / 0b1111 / 0b11111111; any other value hits
the panicking default arm, modelled as none (protocol error). -/
def getSize (wen : Nat) : Option Nat :=
  match wen >>> trailingZeros8 wen with
  | 1 => some BYTE
  | 3 => some HALFWORD
  | 15 => some WORD
  | 255 => some DOUBLEWORD
  | _ => none

/- ============================================================
   C8. FCLASS.{S,D} classification result.
   Embeds src/cpu.rs lines 2400-2424 (fclass.s) and 2434-2458
   (fclass.d); both read an f64 register and dispatch on Rust
   f64::classify() and f64::is_sign_negative(), which are pure
   functions of the IEEE-754 binary64 bit pattern, embedded here
   over the 64-bit pattern b.
   ============================================================ -/

/-- Exponent field (bits 52-62) of an IEEE-754 binary64 bit pattern. -/
def f64Exp (b : Nat) : Nat := (b >>> 52) &&& 0x7ff

/-- Fraction field (bits 0-51) of an IEEE-754 binary64 bit pattern. -/
def f64Frac (b : Nat) : Nat := b &&& (2 ^ 52 - 1)

/-- Sign bit (bit 63) of an IEEE-754 binary64 bit pattern, true when
negative; mirrors Rust f64::is_sign_negative. -/
def f64SignNeg (b : Nat) : Bool := (b >>> 63) &&& 1 = 1

/-- Rust std::num::FpCategory, the result type of f64::classify. -/
inductive FpCategory where
  | Infinite
  | Normal
  | Subnormal
  | Zero
  | Nan
  deriving Repr, DecidableEq

/-- Rust f64::classify as a function of the binary64 bit pattern:
exponent all ones splits infinity / NaN on the fraction, exponent zero
splits zero / subnormal on the fraction, anything else is normal. -/
def f64Classify (b : Nat) : FpCategory :=
  if f64Exp b = 0x7ff then (if f64Frac b = 0 then .Infinite else .Nan)
  else if f64Exp b = 0 then (if f64Frac b = 0 then .Zero else .Subnormal)
  else .Normal

/-- The value the fclass.s / fclass.d arms (src/cpu.rs 2400-2424 and
2434-2458) write to rd for a register holding bit pattern b: the match
writes 0-7 by category and sign, and 9 for every NaN. -/
def fclassValue (b : Nat) : Nat :=
  match f64Classify b with
  | .Infinite => if f64SignNeg b then 0 else 7
  | .Normal => if f64SignNeg b then 1 else 6
  | .Subnormal => if f64SignNeg b then 2 else 5
  | .Zero => if f64SignNeg b then 3 else 4
  | .Nan => 9

/-- Modelled from the spec: the 10-bit one-hot FCLASS result the spec
(§4.3, "FCLASS.{S,D} returns a 10-bit one-hot per the RISC-V spec
(negative infinity=bit 0 … quiet NaN=bit 9)") says is written: bit 0
for negative infinity up through bit 9 for a (quiet) NaN; following the
source and the spec sentence, every NaN is treated as quiet (bit 8,
signaling NaN, is never produced). -/
def fclassSpecOneHot (b : Nat) : Nat :=
  match f64Classify b with
  | .Infinite => if f64SignNeg b then 2 ^ 0 else 2 ^ 7
  | .Normal => if f64SignNeg b then 2 ^ 1 else 2 ^ 6
  | .Subnormal => if f64SignNeg b then 2 ^ 2 else 2 ^ 5
  | .Zero => if f64SignNeg b then 2 ^ 3 else 2 ^ 4
  | .Nan => 2 ^ 9

/- ============================================================
   C10. Integer register file construction and reset.
   Embeds src/cpu/gpr.rs lines 13-44 and src/cpu.rs lines 112-120.
   ============================================================ -/

/-- Modelled from the spec: DRAM base address. bus.rs is missing from
the tree; §6 of the spec fixes the DRAM base at 0x8000_0000. -/
def DRAM_BASE : Nat := 0x80000000

/-- Modelled from the spec: DRAM size. devices/dram.rs is missing from
the tree; the repository's constants.rs uses MEM_SIZE = 0x800_0000
(128 MiB) for the same flat RAM region. -/
def DRAM_SIZE : Nat := 0x8000000

/-- POINTER_TO_DTB constant of src/cpu.rs line 43. -/
def POINTER_TO_DTB : Nat := 0x1020

/-- The register file is embedded as a function from register index to
value; indices used by the code are always below 32. -/
def Gpr := Nat → Nat

/-- Gpr::new (src/cpu/gpr.rs lines 13-31): all registers zero except
x2 (sp) = DRAM_BASE + DRAM_SIZE and x11 (a1) = POINTER_TO_DTB; the
source also writes x10 = 0, which the zero initialisation already
gives. -/
def Gpr.new : Gpr := fun i =>
  if i = 2 then DRAM_BASE + DRAM_SIZE
  else if i = 10 then 0
  else if i = 11 then POINTER_TO_DTB
  else 0

/-- Gpr::read (src/cpu/gpr.rs lines 34-36). -/
def Gpr.read (g : Gpr) (i : Nat) : Nat := g i

/-- Gpr::write (src/cpu/gpr.rs lines 39-44): writes to index 0 are
silently discarded (x0 is hardwired to zero). -/
def Gpr.write (g : Gpr) (i v : Nat) : Gpr :=
  if i ≠ 0 then (fun j => if j = i then v else g j) else g

/-- The GPR half of Cpu::reset (src/cpu.rs lines 116-119): the loop
`for i in 0..32 { gpr.write(i, 0) }`, applied in ascending order;
resetGprLoop g n performs the writes for indices below n. -/
def resetGprLoop (g : Gpr) : Nat → Gpr
  | 0 => g
  | n + 1 => (resetGprLoop g n).write n 0

/-- The register-file state after Cpu::reset. -/
def Gpr.reset (g : Gpr) : Gpr := resetGprLoop g 32

/- ============================================================
   Theorems for C1, C8, C9, C10.
   ============================================================ -/

/-- C1 counterexample: two retirement records that agree on commit, pc
and rd_index, with rd_index = 0 on both sides, but differ in rd_value,
compare UNEQUAL under the source's PartialEq — the claim says the rd
fields are ignored when rd_index = 0, so it predicts they compare
equal. -/
theorem debuginfo_rd_zero_not_ignored :
    DebugInfo.eqv ⟨true, 0x80000000, 0, 0⟩ ⟨true, 0x80000000, 0, 1⟩ = false := by
  decide

/-- C1 (amended): equality of retirement records is field-wise on all
four fields (commit, pc, wnum, wdata) unconditionally; the comparison
coincides with structural equality of the records and has no special
case for wnum = 0. -/
theorem debuginfo_eq_compares_all_fields :
    ∀ a b : DebugInfo, DebugInfo.eqv a b = true ↔ a = b := by
  intro a b
  cases a
  cases b
  simp [DebugInfo.eqv, DebugInfo.mk.injEq, Bool.and_eq_true, and_assoc]

/-- C8 counterexample: a negative-infinity operand (bit pattern
0xfff0000000000000) makes FCLASS write 0, not the one-hot 2 ^ 0 = 1 the
claim states, and a quiet-NaN operand (0x7ff8000000000000) makes it
write 9, not 2 ^ 9 = 512; the written value 0 has no bit set at all, so
the written value is not always one-hot. -/
theorem fclass_not_one_hot :
    fclassValue 0xfff0000000000000 = 0 ∧ fclassValue 0xfff0000000000000 ≠ 2 ^ 0 ∧
    fclassValue 0x7ff8000000000000 = 9 ∧ fclassValue 0x7ff8000000000000 ≠ 2 ^ 9 := by
  decide

/-- C8 (amended): FCLASS.{S,D} write the RISC-V classification INDEX
(0 through 9: negative infinity = 0, …, NaN = 9), not the mandated
one-hot value; for every register bit pattern the mandated one-hot
value equals 2 raised to the value actually written. -/
theorem fclass_writes_class_index :
    ∀ b : Nat, fclassSpecOneHot b = 2 ^ fclassValue b := by
  intro b
  unfold fclassValue fclassSpecOneHot
  cases f64Classify b <;> cases hs : f64SignNeg b <;> simp [hs]

/-- C9 counterexample: the write-mask 0b0000_1100 is none of the four
patterns the claim lists, yet get_size accepts it and returns the
halfword size (the mask is first shifted right by its trailing-zero
count) — the claim says every mask other than the four listed patterns
is a protocol error. -/
theorem get_size_accepts_shifted_mask : getSize 0b00001100 = some HALFWORD := by
  decide

/-- C9 (amended): get_size first normalizes the write-mask by shifting
out its trailing zeros and then maps 0b1 / 0b11 / 0b1111 / 0b11111111
to the 1 / 2 / 4 / 8-byte bus widths; hence every contiguous mask of
run length 1, 2, 4 or 8 at any byte offset yields the corresponding
size, and exactly the masks whose normalized form is none of the four
patterns (including 0) are protocol errors. -/
theorem get_size_characterization :
    ∀ wen : Fin 256,
      (getSize wen.val = some BYTE ↔ wen.val ∈ [1, 2, 4, 8, 16, 32, 64, 128]) ∧
      (getSize wen.val = some HALFWORD ↔ wen.val ∈ [3, 6, 12, 24, 48, 96, 192]) ∧
      (getSize wen.val = some WORD ↔ wen.val ∈ [15, 30, 60, 120, 240]) ∧
      (getSize wen.val = some DOUBLEWORD ↔ wen.val = 255) ∧
      ((getSize wen.val).isSome ↔ wen.val ∈
        [1, 2, 4, 8, 16, 32, 64, 128, 3, 6, 12, 24, 48, 96, 192, 15, 30, 60, 120, 240, 255]) := by
  decide

/-- C10: a freshly constructed register file (Gpr::new, as used by
Cpu::new before any reset) is not all-zero: x2 reads
DRAM_BASE + DRAM_SIZE and x11 reads POINTER_TO_DTB = 0x1020 ≠ 0, while
every other register, including x0 and x10, reads 0; after Cpu::reset's
register loop all 32 registers read 0. -/
theorem gpr_new_not_all_zero :
    Gpr.new.read 2 = DRAM_BASE + DRAM_SIZE ∧
    (Gpr.new.read 11 = POINTER_TO_DTB ∧ POINTER_TO_DTB ≠ 0) ∧
    (Gpr.new.read 0 = 0 ∧ Gpr.new.read 10 = 0) ∧
    (∀ i : Fin 32, i.val ≠ 2 → i.val ≠ 11 → Gpr.new.read i.val = 0) ∧
    (∀ i : Fin 32, Gpr.new.reset.read i.val = 0) := by
  decide

/-- C10 witness: the theorem instantiated at register x5 (and x7 for
the post-reset conjunct), with its hypotheses discharged concretely. -/
theorem gpr_new_not_all_zero_witness :
    Gpr.new.read 5 = 0 ∧ Gpr.new.reset.read 7 = 0 :=
  ⟨gpr_new_not_all_zero.2.2.2.1 ⟨5, by decide⟩ (by decide) (by decide),
   gpr_new_not_all_zero.2.2.2.2 ⟨7, by decide⟩⟩

/- ============================================================
   C4. M-extension division and remainder.
   Embeds the div / rem arms of execute_general (src/cpu.rs
   1672-1695 and 1740-1761) and the divw / remw arms
   (src/cpu.rs 1832-1855 and 1891-1911). Rust wrapping_div /
   wrapping_rem on i64 round toward zero (Int.tdiv / Int.tmod);
   the overflow operand pair, where wrapping would differ, is
   intercepted by the preceding branch in every arm.
   ============================================================ -/

/-- Value written to rd by the div arm (src/cpu.rs 1672-1695); the arm
also sets the FCSR DZ bit in the divisor-zero branch, which is not part
of the written value. -/
def divValue (rs1v rs2v : Nat) : Nat :=
  if toSigned64 rs2v = 0 then U64 - 1
  else if toSigned64 rs1v = -(2 ^ 63) ∧ toSigned64 rs2v = -1 then toUnsigned64 (toSigned64 rs1v)
  else toUnsigned64 ((toSigned64 rs1v).tdiv (toSigned64 rs2v))

/-- Value written to rd by the rem arm (src/cpu.rs 1740-1761). -/
def remValue (rs1v rs2v : Nat) : Nat :=
  if toSigned64 rs2v = 0 then toUnsigned64 (toSigned64 rs1v)
  else if toSigned64 rs1v = -(2 ^ 63) ∧ toSigned64 rs2v = -1 then 0
  else toUnsigned64 ((toSigned64 rs1v).tmod (toSigned64 rs2v))

/-- Value written to rd by the divw arm (src/cpu.rs 1832-1855): the
operands are truncated to i32 and the result is sign-extended. -/
def divwValue (rs1v rs2v : Nat) : Nat :=
  if toSigned32 rs2v = 0 then U64 - 1
  else if toSigned32 rs1v = -(2 ^ 31) ∧ toSigned32 rs2v = -1 then toUnsigned64 (toSigned32 rs1v)
  else toUnsigned64 ((toSigned32 rs1v).tdiv (toSigned32 rs2v))

/-- Value written to rd by the remw arm (src/cpu.rs 1891-1911). -/
def remwValue (rs1v rs2v : Nat) : Nat :=
  if toSigned32 rs2v = 0 then toUnsigned64 (toSigned32 rs1v)
  else if toSigned32 rs1v = -(2 ^ 31) ∧ toSigned32 rs2v = -1 then 0
  else toUnsigned64 ((toSigned32 rs1v).tmod (toSigned32 rs2v))

/-- Truncated remainder in terms of natural absolute values. -/
theorem natAbs_tmod_eq (a b : Int) : (a.tmod b).natAbs = a.natAbs % b.natAbs := by
  cases a <;> cases b <;>
    simp [Int.tmod, Int.natAbs_neg] <;> norm_cast

/-- The signed view of a u64 bit pattern lies in the i64 range. -/
theorem toSigned64_range (x : Nat) : -(2 ^ 63) ≤ toSigned64 x ∧ toSigned64 x < 2 ^ 63 := by
  unfold toSigned64 U64
  have h : x % 2 ^ 64 < 2 ^ 64 := Nat.mod_lt _ (by decide)
  split <;> omega

/-- The signed view of the low 32 bits lies in the i32 range. -/
theorem toSigned32_range (x : Nat) : -(2 ^ 31) ≤ toSigned32 x ∧ toSigned32 x < 2 ^ 31 := by
  unfold toSigned32
  have h : x % 2 ^ 32 < 2 ^ 32 := Nat.mod_lt _ (by decide)
  split <;> omega

/-- Reinterpretation round trip u64 → i64 → u64. -/
theorem toUnsigned64_toSigned64 (x : Nat) : toUnsigned64 (toSigned64 x) = x % U64 := by
  unfold toSigned64 toUnsigned64 U64
  have h : x % 2 ^ 64 < 2 ^ 64 := Nat.mod_lt _ (by decide)
  split <;> omega

/-- Reinterpretation round trip i64 → u64 → i64 on the i64 range. -/
theorem toSigned64_toUnsigned64 (i : Int) (h1 : -(2 ^ 63) ≤ i) (h2 : i < 2 ^ 63) :
    toSigned64 (toUnsigned64 i) = i := by
  unfold toSigned64 toUnsigned64 U64
  split <;> omega

/-- Range of a truncated quotient of in-range operands, excluding the
one overflowing operand pair. -/
theorem tdiv_range {a b : Int} {M : Nat} (hM : 1 ≤ M)
    (ha1 : -(M : Int) ≤ a) (ha2 : a < (M : Int)) (hb : b ≠ 0)
    (hover : ¬(a = -(M : Int) ∧ b = -1)) :
    -(M : Int) ≤ a.tdiv b ∧ a.tdiv b < (M : Int) := by
  by_cases hb1 : b = 1
  · subst hb1
    simp only [Int.tdiv_one]
    omega
  by_cases hbm : b = -1
  · subst hbm
    have h : a.tdiv (-1) = -a := by
      have := Int.tdiv_neg a 1
      simpa using this
    rw [h]
    omega
  have h2b : 2 ≤ b.natAbs := by omega
  have h3 : (a.tdiv b).natAbs = a.natAbs / b.natAbs := Int.natAbs_tdiv a b
  have h4 : a.natAbs / b.natAbs ≤ a.natAbs / 2 := Nat.div_le_div_left h2b (by omega)
  have h5 : a.natAbs ≤ M := by omega
  omega

/-- Range and bound of a truncated remainder of in-range operands. -/
theorem tmod_range {a b : Int} {M : Nat}
    (ha1 : -(M : Int) ≤ a) (ha2 : a < (M : Int))
    (hb1 : -(M : Int) ≤ b) (hb2 : b < (M : Int)) (hb : b ≠ 0) :
    (-(M : Int) ≤ a.tmod b ∧ a.tmod b < (M : Int)) ∧
      (a.tmod b).natAbs < b.natAbs := by
  have h1 : (a.tmod b).natAbs = a.natAbs % b.natAbs := natAbs_tmod_eq a b
  have h2 : a.natAbs % b.natAbs < b.natAbs := Nat.mod_lt _ (by omega)
  have h3 : b.natAbs ≤ M := by omega
  omega

/-- C4: the M-extension division semantics. For all operand bit
patterns: DIV (and DIVW) with divisor zero writes all-ones; signed DIV
(DIVW) overflow — dividend INT_MIN and divisor -1 — writes back the
dividend; REM (REMW) with divisor zero writes the dividend; signed REM
(REMW) overflow writes 0; in every other case the quotient written is
the truncated-toward-zero quotient and the remainder is the matching
remainder (dividend = quotient · divisor + remainder with the remainder
smaller than the divisor in absolute value). -/
theorem div_rem_semantics (x y : Nat) :
    (toSigned64 y = 0 → divValue x y = U64 - 1 ∧ remValue x y = x % U64) ∧
    (toSigned64 x = -(2 ^ 63) → toSigned64 y = -1 →
      divValue x y = x % U64 ∧ remValue x y = 0) ∧
    (toSigned64 y ≠ 0 → ¬(toSigned64 x = -(2 ^ 63) ∧ toSigned64 y = -1) →
      toSigned64 (divValue x y) = (toSigned64 x).tdiv (toSigned64 y) ∧
      toSigned64 (remValue x y) = (toSigned64 x).tmod (toSigned64 y) ∧
      toSigned64 x =
        (toSigned64 x).tdiv (toSigned64 y) * toSigned64 y + toSigned64 (remValue x y) ∧
      (toSigned64 (remValue x y)).natAbs < (toSigned64 y).natAbs) ∧
    (toSigned32 y = 0 → divwValue x y = U64 - 1 ∧ remwValue x y = toUnsigned64 (toSigned32 x)) ∧
    (toSigned32 x = -(2 ^ 31) → toSigned32 y = -1 →
      divwValue x y = toUnsigned64 (toSigned32 x) ∧ remwValue x y = 0) ∧
    (toSigned32 y ≠ 0 → ¬(toSigned32 x = -(2 ^ 31) ∧ toSigned32 y = -1) →
      toSigned64 (divwValue x y) = (toSigned32 x).tdiv (toSigned32 y) ∧
      toSigned64 (remwValue x y) = (toSigned32 x).tmod (toSigned32 y)) := by
  obtain ⟨hx1, hx2⟩ := toSigned64_range x
  obtain ⟨hy1, hy2⟩ := toSigned64_range y
  obtain ⟨hx1w, hx2w⟩ := toSigned32_range x
  obtain ⟨hy1w, hy2w⟩ := toSigned32_range y
  refine ⟨fun h0 => ?_, fun hov1 hov2 => ?_, fun h0 hov => ?_,
    fun h0 => ?_, fun hov1 hov2 => ?_, fun h0 hov => ?_⟩
  · rw [divValue, remValue]
    simp only [h0, if_pos rfl]
    exact ⟨rfl, toUnsigned64_toSigned64 x⟩
  · have hne : toSigned64 y ≠ 0 := by rw [hov2]; decide
    rw [divValue, remValue]
    rw [if_neg hne, if_neg hne, if_pos ⟨hov1, hov2⟩, if_pos ⟨hov1, hov2⟩]
    exact ⟨toUnsigned64_toSigned64 x, rfl⟩
  · have hq := tdiv_range (M := 2 ^ 63) (by norm_num) hx1 hx2 h0 (by push_cast; exact hov)
    have hr := tmod_range (M := 2 ^ 63) hx1 hx2 hy1 hy2 h0
    rw [divValue, remValue]
    rw [if_neg h0, if_neg h0, if_neg hov, if_neg hov]
    push_cast at hq hr
    rw [toSigned64_toUnsigned64 _ hq.1 hq.2, toSigned64_toUnsigned64 _ hr.1.1 hr.1.2]
    refine ⟨rfl, rfl, ?_, hr.2⟩
    have h := Int.tdiv_add_tmod (toSigned64 x) (toSigned64 y)
    linarith [h]
  · rw [divwValue, remwValue]
    simp only [h0, if_pos rfl]
    exact ⟨rfl, rfl⟩
  · have hne : toSigned32 y ≠ 0 := by rw [hov2]; decide
    rw [divwValue, remwValue]
    rw [if_neg hne, if_neg hne, if_pos ⟨hov1, hov2⟩, if_pos ⟨hov1, hov2⟩]
    exact ⟨rfl, rfl⟩
  · have hq := tdiv_range (M := 2 ^ 31) (by norm_num) hx1w hx2w h0 (by push_cast; exact hov)
    have hr := tmod_range (M := 2 ^ 31) hx1w hx2w hy1w hy2w h0
    rw [divwValue, remwValue]
    rw [if_neg h0, if_neg h0, if_neg hov, if_neg hov]
    push_cast at hq hr
    constructor
    · exact toSigned64_toUnsigned64 _ (by linarith [hq.1]) (by linarith [hq.2])
    · exact toSigned64_toUnsigned64 _ (by linarith [hr.1.1]) (by linarith [hr.1.2])

/-- C4 witness: the theorem instantiated at dividend 7 and divisor -3
(bit pattern 2 ^ 64 - 3), discharging the non-zero and non-overflow
hypotheses concretely. -/
theorem div_rem_semantics_witness :
    toSigned64 (divValue 7 (U64 - 3)) = (toSigned64 7).tdiv (toSigned64 (U64 - 3)) ∧
    toSigned64 (remValue 7 (U64 - 3)) = (toSigned64 7).tmod (toSigned64 (U64 - 3)) ∧
    toSigned64 7 = (toSigned64 7).tdiv (toSigned64 (U64 - 3)) * toSigned64 (U64 - 3) +
      toSigned64 (remValue 7 (U64 - 3)) ∧
    (toSigned64 (remValue 7 (U64 - 3))).natAbs < (toSigned64 (U64 - 3)).natAbs :=
  (div_rem_semantics 7 (U64 - 3)).2.2.1 (by decide) (by decide)

/- ============================================================
   Shared privileged-architecture types.
   ============================================================ -/

/-- Modelled from the spec: the synchronous exception type of the
missing exception.rs, with the constructors §4.5 enumerates;
IllegalInstruction carries the offending instruction bits and the
page faults carry the faulting virtual address, as used throughout
cpu.rs. -/
inductive Exception where
  | InstructionAddressMisaligned
  | InstructionAccessFault
  | IllegalInstruction (bits : Nat)
  | Breakpoint
  | LoadAddressMisaligned
  | LoadAccessFault
  | StoreAMOAddressMisaligned
  | StoreAMOAccessFault
  | EnvironmentCallFromUMode
  | EnvironmentCallFromSMode
  | EnvironmentCallFromMMode
  | InstructionPageFault (addr : Nat)
  | LoadPageFault (addr : Nat)
  | StoreAMOPageFault (addr : Nat)
  deriving Repr, DecidableEq

/-- The privileged mode (src/cpu.rs lines 58-64). -/
inductive Mode where
  | User
  | Supervisor
  | Machine
  | Debug
  deriving Repr, DecidableEq

/-- The access type driving which page fault a failed translation
raises (src/cpu.rs lines 47-55). -/
inductive AccessType where
  | Instruction
  | Load
  | Store
  deriving Repr, DecidableEq

/- ============================================================
   C2. Decode-level outcome of every instruction encoding.
   Embeds the dispatch skeletons of execute_compressed
   (src/cpu.rs 483-1002) and of the opcode-0x73 system arm of
   execute_general (src/cpu.rs 2557-2776): which encodings reach
   a handler, which return IllegalInstruction (or another
   decode-level exception), and which hit a Rust panic!.
   ============================================================ -/

/-- Decode-level outcome of dispatching one instruction encoding:
the encoding reaches a handler body, or the dispatch itself returns
an exception value, or it hits a host-side panic. -/
inductive DecodeClass where
  | executes
  | raises (e : Exception)
  | abort
  deriving Repr, DecidableEq

/-- The dispatch skeleton of execute_compressed (src/cpu.rs 483-1002):
quadrant = low 2 bits, funct3 = bits 13-15; each arm is classified as
executes (the handler body runs), raises (the arm returns an exception
value) or abort (the arm is the `panic!("reserved")` of lines 548-551).
Arms whose bodies only read/write registers or memory are all
`executes`; the guards that the source checks before reaching a handler
(the nzuimm = 0 check of c.addi4spn, the rd = 0 check selecting
c.ebreak) are reproduced. -/
def executeCompressedClass (inst : Nat) : DecodeClass :=
  match inst &&& 3 with
  | 0 =>
    match (inst >>> 13) &&& 7 with
    | 0 =>
      if ((inst >>> 1) &&& 0x3c0) ||| ((inst >>> 7) &&& 0x30) |||
          ((inst >>> 2) &&& 0x8) ||| ((inst >>> 4) &&& 0x4) = 0 then
        .raises (.IllegalInstruction inst)
      else .executes
    | 1 => .executes
    | 2 => .executes
    | 3 => .executes
    | 4 => .abort
    | 5 => .executes
    | 6 => .executes
    | 7 => .executes
    | _ => .raises (.IllegalInstruction inst)
  | 1 =>
    match (inst >>> 13) &&& 7 with
    | 0 => .executes
    | 1 => .executes
    | 2 => .executes
    | 3 => .executes
    | 4 =>
      match (inst >>> 10) &&& 3 with
      | 0 => .executes
      | 1 => .executes
      | 2 => .executes
      | 3 =>
        match (inst >>> 12) &&& 1, (inst >>> 5) &&& 3 with
        | 0, 0 => .executes
        | 0, 1 => .executes
        | 0, 2 => .executes
        | 0, 3 => .executes
        | 1, 0 => .executes
        | 1, 1 => .executes
        | _, _ => .raises (.IllegalInstruction inst)
      | _ => .raises (.IllegalInstruction inst)
    | 5 => .executes
    | 6 => .executes
    | 7 => .executes
    | _ => .raises (.IllegalInstruction inst)
  | 2 =>
    match (inst >>> 13) &&& 7 with
    | 0 => .executes
    | 1 => .executes
    | 2 => .executes
    | 3 => .executes
    | 4 =>
      match (inst >>> 12) &&& 1, (inst >>> 2) &&& 0x1f with
      | 0, 0 => .executes
      | 0, _ => .executes
      | 1, 0 =>
        if (inst >>> 7) &&& 0x1f = 0 then .raises .Breakpoint else .executes
      | 1, _ => .executes
      | _, _ => .raises (.IllegalInstruction inst)
    | 5 => .executes
    | 6 => .executes
    | 7 => .executes
    | _ => .raises (.IllegalInstruction inst)
  | _ => .raises (.IllegalInstruction inst)

/-- The dispatch skeleton of the opcode-0x73 arm of execute_general
(src/cpu.rs 2557-2776): funct3 = 0 dispatches the system instructions
on (rs2, funct7) — ecall raises the mode-matched environment call,
ebreak raises Breakpoint, uret is the `panic!` of lines 2590-2593,
sret / mret / wfi / sfence.vma / hfence run handlers — and funct3
1-3 and 5-7 run the CSR handlers (embedded in full further below). -/
def executeSystemClass (mode : Mode) (inst : Nat) : DecodeClass :=
  match (inst >>> 12) &&& 7 with
  | 0 =>
    match (inst >>> 20) &&& 0x1f, (inst >>> 25) &&& 0x7f with
    | 0, 0 =>
      match mode with
      | .User => .raises .EnvironmentCallFromUMode
      | .Supervisor => .raises .EnvironmentCallFromSMode
      | .Machine => .raises .EnvironmentCallFromMMode
      | _ => .raises (.IllegalInstruction inst)
    | 1, 0 => .raises .Breakpoint
    | 2, 0 => .abort
    | 2, 0x8 => .executes
    | 2, 0x18 => .executes
    | 5, 0x8 => .executes
    | _, 0x9 => .executes
    | _, 0x11 => .executes
    | _, 0x51 => .executes
    | _, _ => .raises (.IllegalInstruction inst)
  | 1 => .executes
  | 2 => .executes
  | 3 => .executes
  | 5 => .executes
  | 6 => .executes
  | 7 => .executes
  | _ => .raises (.IllegalInstruction inst)

/-- C2: refuted — the code panics on reachable encodings instead of
returning IllegalInstruction. The reserved compressed encoding 0x8000
(quadrant 0, funct3 0b100) hits `panic!("reserved")` in
execute_compressed (src/cpu.rs 548-551), and the uret encoding
0x00200073 hits `panic!("uret: not implemented yet…")` in
execute_general (src/cpu.rs 2590-2593); both are host-side aborts,
not IllegalInstruction values. -/
theorem reserved_encodings_abort :
    executeCompressedClass 0x8000 = DecodeClass.abort ∧
    executeSystemClass Mode.Machine 0x00200073 = DecodeClass.abort := by
  decide

/- ============================================================
   C6. Sv39 address translation.
   Embeds Cpu::translate (src/cpu.rs 226-367). The page-table
   reads go through self.bus.read(…, DOUBLEWORD); bus.rs is
   missing from the tree, so the 64-bit physical read is taken
   as a parameter busRead (it may fail with any exception, as
   the source propagates bus errors with `?`). The source leaves
   step 5 (R/W/X/U permission checking) as a TODO and never
   writes the updated PTE back (line 336 is commented out); the
   embedding mirrors both.
   ============================================================ -/

/-- The page fault matching an access type, carrying the faulting
virtual address, as raised throughout Cpu::translate. -/
def pageFault (t : AccessType) (addr : Nat) : Exception :=
  match t with
  | .Instruction => .InstructionPageFault addr
  | .Load => .LoadPageFault addr
  | .Store => .StoreAMOPageFault addr

/-- The virtual page number of level i of a virtual address
(src/cpu.rs line 235). -/
def vpnAt (addr : Nat) : Nat → Nat
  | 0 => (addr >>> 12) &&& 0x1ff
  | 1 => (addr >>> 21) &&& 0x1ff
  | _ => (addr >>> 30) &&& 0x1ff

/-- The page-walk loop of Cpu::translate (src/cpu.rs 242-280): read
the PTE of level i at a + vpn[i]·8, fault if V = 0 or (R = 0 ∧ W = 1),
stop at a leaf (R = 1 ∨ X = 1) returning the PTE and its level, else
descend to the next level, faulting when the level would go below 0. -/
def ptWalk (busRead : Nat → Except Exception Nat) (t : AccessType) (addr : Nat) :
    Nat → Nat → Except Exception (Nat × Nat)
  | a, i =>
    match busRead (a + vpnAt addr i * 8) with
    | .error e => .error e
    | .ok pte =>
      if pte &&& 1 = 0 ∨ ((pte >>> 1) &&& 1 = 0 ∧ (pte >>> 2) &&& 1 = 1) then
        .error (pageFault t addr)
      else if (pte >>> 1) &&& 1 = 1 ∨ (pte >>> 3) &&& 1 = 1 then
        .ok (pte, i)
      else
        match i with
        | 0 => .error (pageFault t addr)
        | i' + 1 => ptWalk busRead t addr (((pte >>> 10) &&& 0xfffffffffff) * 4096) i'

/-- Cpu::translate (src/cpu.rs 226-367): identity when paging is
disabled or the current mode is Machine; otherwise a three-level walk
from the latched root page table, a misaligned-superpage check on the
leaf level, a local (never written back) accessed/dirty update, and
composition of the physical address from the leaf PPN, the low vpn
fields (for superpages) and the 12-bit page offset. -/
def translate (busRead : Nat → Except Exception Nat) (enablePaging : Bool) (mode : Mode)
    (pageTable addr : Nat) (t : AccessType) : Except Exception Nat :=
  if ¬enablePaging ∨ mode = Mode.Machine then .ok addr
  else
    match ptWalk busRead t addr pageTable 2 with
    | .error e => .error e
    | .ok (pte, i) =>
      if (1 ≤ i ∧ (pte >>> 10) &&& 0x1ff ≠ 0) ∨ (2 ≤ i ∧ (pte >>> 19) &&& 0x1ff ≠ 0) then
        .error (pageFault t addr)
      else
        let pte2 :=
          if (pte >>> 6) &&& 1 = 0 ∨ (t = AccessType.Store ∧ (pte >>> 7) &&& 1 = 0) then
            pte ||| (1 <<< 6) ||| (if t = AccessType.Store then 1 <<< 7 else 0)
          else pte
        let offset := addr &&& 0xfff
        match i with
        | 0 => .ok ((((pte2 >>> 10) &&& 0xfffffffffff) <<< 12) ||| offset)
        | 1 => .ok ((((pte >>> 28) &&& 0x3ffffff) <<< 30) ||| (((pte >>> 19) &&& 0x1ff) <<< 21) |||
            (vpnAt addr 0 <<< 12) ||| offset)
        | 2 => .ok ((((pte >>> 28) &&& 0x3ffffff) <<< 30) ||| (vpnAt addr 1 <<< 21) |||
            (vpnAt addr 0 <<< 12) ||| offset)
        | _ => .error (pageFault t addr)

/-- Taking the low k bits commutes with bitwise or. -/
theorem lor_mod_two_pow (a b k : Nat) : (a ||| b) % 2 ^ k = a % 2 ^ k ||| b % 2 ^ k := by
  apply Nat.eq_of_testBit_eq
  intro i
  simp [Nat.testBit_mod_two_pow, Nat.testBit_or, Bool.and_or_distrib_left]

/-- Taking the low 12 bits (the Sv39 page offset) commutes with or. -/
theorem lor_mod_4096 (a b : Nat) : (a ||| b) % 4096 = a % 4096 ||| b % 4096 := by
  have h := lor_mod_two_pow a b 12
  norm_num at h
  exact h

/-- A value shifted left by at least j bits has zero low j bits. -/
theorem shiftLeft_mod_eq_zero {k j : Nat} (x : Nat) (h : j ≤ k) : (x <<< k) % 2 ^ j = 0 := by
  rw [Nat.shiftLeft_eq]
  exact Nat.mod_eq_zero_of_dvd (Dvd.dvd.mul_left (pow_dvd_pow 2 h) x)

/-- Page-number fields shifted to bit 12 contribute nothing below the
page offset. -/
theorem shl12_mod_4096 (x : Nat) : (x <<< 12) % 4096 = 0 := by
  have h := shiftLeft_mod_eq_zero (k := 12) (j := 12) x (by norm_num)
  norm_num at h
  exact h

/-- Page-number fields shifted to bit 21 contribute nothing below the
page offset. -/
theorem shl21_mod_4096 (x : Nat) : (x <<< 21) % 4096 = 0 := by
  have h := shiftLeft_mod_eq_zero (k := 21) (j := 12) x (by norm_num)
  norm_num at h
  exact h

/-- Page-number fields shifted to bit 30 contribute nothing below the
page offset. -/
theorem shl30_mod_4096 (x : Nat) : (x <<< 30) % 4096 = 0 := by
  have h := shiftLeft_mod_eq_zero (k := 30) (j := 12) x (by norm_num)
  norm_num at h
  exact h

/-- C6: whenever translate succeeds — the paging-disabled / M-mode
identity path, a level-0 leaf, or either superpage case — the low 12
bits of the returned physical address equal the low 12 bits of the
virtual address. -/
theorem translate_preserves_offset (busRead : Nat → Except Exception Nat) (ep : Bool)
    (mode : Mode) (pt addr : Nat) (t : AccessType) (pa : Nat)
    (h : translate busRead ep mode pt addr t = .ok pa) :
    pa % 4096 = addr % 4096 := by
  have hoff : addr &&& 0xfff = addr % 4096 := by
    have hfff : (0xfff : Nat) = 2 ^ 12 - 1 := by norm_num
    rw [hfff]
    have h12 := Nat.and_pow_two_sub_one_eq_mod addr 12
    norm_num at h12
    exact h12
  unfold translate at h
  split at h
  · cases h
    rfl
  · split at h
    · cases h
    · rename_i pte_i heq
      split at h
      · cases h
      · simp only at h
        split at h <;> cases h <;>
          simp [lor_mod_4096, shl12_mod_4096, shl21_mod_4096, shl30_mod_4096, hoff]

/-- C6 witness: a successful paging-enabled translation through a
level-2 (1 GiB) superpage leaf — every PTE read returns a valid leaf
with ppn[2] = 1 — maps virtual 0x12345 to physical 0x40012345, and the
theorem applies with its hypothesis discharged by evaluation. -/
theorem translate_preserves_offset_witness :
    (0x40012345 : Nat) % 4096 = (0x12345 : Nat) % 4096 :=
  translate_preserves_offset (fun _ => .ok (2 ^ 28 + 11)) true Mode.Supervisor
    0x80000000 0x12345 AccessType.Load 0x40012345 (by rfl)

/- ============================================================
   C3. Trap-return instructions SRET and MRET.
   Embeds the sret arm (src/cpu.rs 2594-2632) and the mret arm
   (src/cpu.rs 2633-2676) of execute_general. The Csr file
   (cpu/csr.rs) is missing from the tree; its field helpers
   read_mstatus / write_mstatus / read_sstatus / write_sstatus
   are modelled from the spec (§4.2): sstatus reads and writes
   alias the corresponding mstatus bits, and the field positions
   are the architectural mstatus bit positions the source names
   (SIE = 1, MIE = 3, SPIE = 5, MPIE = 7, SPP = 8, MPP = 11..12,
   MPRV = 17).
   ============================================================ -/

/-- mstatus bit position of SIE (aliased by sstatus). -/
def XSTATUS_SIE : Nat := 1

/-- mstatus bit position of SPIE (aliased by sstatus). -/
def XSTATUS_SPIE : Nat := 5

/-- mstatus bit position of SPP (aliased by sstatus). -/
def XSTATUS_SPP : Nat := 8

/-- mstatus bit position of MIE. -/
def MSTATUS_MIE : Nat := 3

/-- mstatus bit position of MPIE. -/
def MSTATUS_MPIE : Nat := 7

/-- mstatus bit position of MPRV. -/
def MSTATUS_MPRV : Nat := 17

/-- Modelled from the spec: the CSR registers the trap-return and
store paths touch, out of the missing cpu/csr.rs: the machine status
register and the two exception program counters. -/
structure CsrRegs where
  mstatus : Nat
  sepc : Nat
  mepc : Nat
  deriving Repr, DecidableEq

/-- The two-bit MPP field (mstatus bits 11-12). -/
def readMPP (mstatus : Nat) : Nat := (mstatus >>> 11) &&& 3

/-- Write the two-bit MPP field (mstatus bits 11-12). -/
def writeMPP (mstatus v : Nat) : Nat :=
  (mstatus / 2 ^ 13) * 2 ^ 13 + (v % 4) * 2 ^ 11 + mstatus % 2 ^ 11

/-- The privileged state the trap-return arms act on. -/
structure PrivState where
  pc : Nat
  mode : Mode
  csr : CsrRegs
  deriving Repr, DecidableEq

/-- The sret arm of execute_general (src/cpu.rs 2594-2632): pc is set
to sepc minus 4 (the driver adds 4 after the arm); the mode is restored
from sstatus.SPP, and ONLY in the SPP = 1 (Supervisor) branch is MPRV
cleared — the SPP = 0 (User) branch leaves MPRV untouched; then
SIE ← SPIE, SPIE ← 1, SPP ← 0. The source's SPP match also has an
unreachable Debug default for values other than 0 and 1, which a
one-bit field cannot produce. -/
def executeSret (s : PrivState) : PrivState :=
  let pc1 := (s.csr.sepc + (U64 - 4)) % U64
  let spp := getBit s.csr.mstatus XSTATUS_SPP
  let mst1 := if spp = 0 then s.csr.mstatus else writeBitN s.csr.mstatus MSTATUS_MPRV 0
  let mode1 := if spp = 0 then Mode.User else Mode.Supervisor
  let mst2 := writeBitN mst1 XSTATUS_SIE (getBit mst1 XSTATUS_SPIE)
  let mst3 := writeBitN mst2 XSTATUS_SPIE 1
  let mst4 := writeBitN mst3 XSTATUS_SPP 0
  { pc := pc1, mode := mode1, csr := { s.csr with mstatus := mst4 } }

/-- The mret arm of execute_general (src/cpu.rs 2633-2676): pc is set
to mepc minus 4; the mode is restored from mstatus.MPP, clearing MPRV
in both the User and the Supervisor branch (not in the Machine one);
then MIE ← MPIE, MPIE ← 1, MPP ← U (0). The MPP value 0b10 falls into
the source's Debug default. -/
def executeMret (s : PrivState) : PrivState :=
  let pc1 := (s.csr.mepc + (U64 - 4)) % U64
  let mpp := readMPP s.csr.mstatus
  let mst1 := if mpp = 0 ∨ mpp = 1 then writeBitN s.csr.mstatus MSTATUS_MPRV 0 else s.csr.mstatus
  let mode1 :=
    if mpp = 0 then Mode.User
    else if mpp = 1 then Mode.Supervisor
    else if mpp = 3 then Mode.Machine
    else Mode.Debug
  let mst2 := writeBitN mst1 MSTATUS_MIE (getBit mst1 MSTATUS_MPIE)
  let mst3 := writeBitN mst2 MSTATUS_MPIE 1
  let mst4 := writeMPP mst3 0
  { pc := pc1, mode := mode1, csr := { s.csr with mstatus := mst4 } }

/-- C3: refuted at SRET-to-User — with sstatus.SPP = 0 and
mstatus.MPRV = 1 (state mstatus = 2 ^ 17, sepc = 0x1000), SRET restores
User mode (not M) yet leaves MPRV set: after the instruction MPRV still
reads 1, while the claim (and the source's own comment, "If SPP !=
M-mode, SRET also sets MPRV=0") requires it to be cleared. The other
effects do occur: the restored pc (after the driver's +4) is sepc, SPIE
becomes 1, SPP becomes 0, and SIE receives the old SPIE (0 here). -/
theorem sret_to_user_keeps_mprv :
    (executeSret ⟨0x2000, Mode.Supervisor, ⟨2 ^ 17, 0x1000, 0⟩⟩).mode = Mode.User ∧
    getBit (executeSret ⟨0x2000, Mode.Supervisor, ⟨2 ^ 17, 0x1000, 0⟩⟩).csr.mstatus
      MSTATUS_MPRV = 1 ∧
    ((executeSret ⟨0x2000, Mode.Supervisor, ⟨2 ^ 17, 0x1000, 0⟩⟩).pc + 4) % U64 = 0x1000 ∧
    getBit (executeSret ⟨0x2000, Mode.Supervisor, ⟨2 ^ 17, 0x1000, 0⟩⟩).csr.mstatus
      XSTATUS_SPIE = 1 ∧
    getBit (executeSret ⟨0x2000, Mode.Supervisor, ⟨2 ^ 17, 0x1000, 0⟩⟩).csr.mstatus
      XSTATUS_SPP = 0 := by
  decide

/- ============================================================
   C5. Store-conditional and the reservation set.
   Embeds Cpu::write (src/cpu.rs 398-427) and the sc.w arm of
   execute_general (src/cpu.rs 1391-1411). The system bus
   (bus.rs) is missing from the tree and is modelled from the
   spec as the flat byte-addressable DRAM region (§3); the MMIO
   devices are irrelevant to this claim. On an error path the
   Rust code leaves already-performed mutations (the reservation
   removal, and under MPRV the temporary mode) in place; the
   Except embedding drops the state on error, which the claims
   settled here never exercise (they evaluate success paths).
   ============================================================ -/

/-- Modelled from the spec: little-endian read of n bytes from the
byte-addressable memory function. -/
def memReadLE (mem : Nat → Nat) (addr : Nat) : Nat → Nat
  | 0 => 0
  | n + 1 => (mem addr % 256) + 256 * memReadLE mem (addr + 1) n

/-- Modelled from the spec: little-endian write of n bytes of value
into the byte-addressable memory function. -/
def memWriteLE (mem : Nat → Nat) (addr value : Nat) : Nat → (Nat → Nat)
  | 0 => mem
  | n + 1 =>
    memWriteLE (fun j => if j = addr then value % 256 else mem j) (addr + 1) (value / 256) n

/-- Modelled from the spec: Bus::read for the DRAM range — a read of
size bits (8/16/32/64) inside [DRAM_BASE, DRAM_BASE + DRAM_SIZE)
succeeds, anything else is a LoadAccessFault (§3: out-of-range accesses
raise access faults). -/
def busReadBytes (mem : Nat → Nat) (addr size : Nat) : Except Exception Nat :=
  if DRAM_BASE ≤ addr ∧ addr + size / 8 ≤ DRAM_BASE + DRAM_SIZE then
    .ok (memReadLE mem addr (size / 8))
  else .error .LoadAccessFault

/-- Modelled from the spec: Bus::write for the DRAM range, the
store-side counterpart of busReadBytes. -/
def busWriteBytes (mem : Nat → Nat) (addr value size : Nat) : Except Exception (Nat → Nat) :=
  if DRAM_BASE ≤ addr ∧ addr + size / 8 ≤ DRAM_BASE + DRAM_SIZE then
    .ok (memWriteLE mem addr value (size / 8))
  else .error .StoreAMOAccessFault

/-- The Mode decoded from a two-bit MPP field, as in Cpu::read and
Cpu::write (src/cpu.rs 378-383 and 405-410). -/
def modeOfMPP : Nat → Mode
  | 0 => .User
  | 1 => .Supervisor
  | 3 => .Machine
  | _ => .Debug

/-- The hart state the store and store-conditional paths act on
(the relevant fields of struct Cpu, src/cpu.rs 67-91). -/
structure Cpu where
  gpr : Gpr
  pc : Nat
  mode : Mode
  csr : CsrRegs
  enablePaging : Bool
  pageTable : Nat
  reservationSet : List Nat
  mem : Nat → Nat

/-- Cpu::write (src/cpu.rs 398-427): under MPRV = 1 translation runs
with the mode taken from mstatus.MPP; any reservation on the virtual
address is removed (lines 413-417); the address is translated as a
store and the bus performs the write; on success the previous mode is
restored. -/
def Cpu.write (c : Cpu) (vaddr value size : Nat) : Except Exception Cpu :=
  let mode1 := if getBit c.csr.mstatus MSTATUS_MPRV = 1
    then modeOfMPP (readMPP c.csr.mstatus) else c.mode
  let resv1 := if c.reservationSet.contains vaddr
    then c.reservationSet.filter (fun x => x ≠ vaddr) else c.reservationSet
  match translate (fun a => busReadBytes c.mem a DOUBLEWORD) c.enablePaging mode1
      c.pageTable vaddr AccessType.Store with
  | .error e => .error e
  | .ok paddr =>
    match busWriteBytes c.mem paddr value size with
    | .error e => .error e
    | .ok mem1 => .ok { c with mode := c.mode, reservationSet := resv1, mem := mem1 }

/-- The sc.w arm of execute_general (src/cpu.rs 1391-1411): fault on a
misaligned address; if the address is in the reservation set, remove
every reservation EQUAL TO THAT ADDRESS (`retain(|x| x != addr)`),
perform the store of rs2 and write rd = 0; otherwise remove the (not
present) address from the set and write rd = 1. Reservations on other
addresses survive in both branches. -/
def scW (c : Cpu) (rd rs1 rs2 : Nat) : Except Exception Cpu :=
  let addr := c.gpr.read rs1
  if addr % 4 ≠ 0 then .error .StoreAMOAddressMisaligned
  else if c.reservationSet.contains addr then
    match Cpu.write { c with reservationSet := c.reservationSet.filter (fun x => x ≠ addr) }
        addr (c.gpr.read rs2) WORD with
    | .error e => .error e
    | .ok c2 => .ok { c2 with gpr := c2.gpr.write rd 0 }
  else
    .ok { c with reservationSet := c.reservationSet.filter (fun x => x ≠ addr),
                 gpr := c.gpr.write rd 1 }

/-- The concrete hart state for the C5 evaluation: x5 holds the
reserved address 0x8000_0000, x6 holds the store value 42, the
reservation set holds TWO live reservations (0x8000_0000 and
0x8000_0008), paging is off and MPRV is clear. -/
def scwCpu0 : Cpu where
  gpr := fun i => if i = 5 then 0x80000000 else if i = 6 then 42 else 0
  pc := 0
  mode := .Machine
  csr := ⟨0, 0, 0⟩
  enablePaging := false
  pageTable := 0
  reservationSet := [0x80000000, 0x80000008]
  mem := fun _ => 0

/-- C5: refuted on the "after any SC the hart holds no live
reservation" conjunct — executing SC.W to the reserved address
0x8000_0000 succeeds as claimed (the store lands, rd reads 0, the
reservation on the accessed address is gone), but the reservation on
0x8000_0008 SURVIVES: the arm only retains-out reservations equal to
the accessed address instead of clearing the whole set, contradicting
the claim and the RISC-V manual text quoted in the source's own
comment. -/
theorem sc_keeps_other_reservations :
    Except.map (fun c => (c.reservationSet, c.gpr.read 7, c.mem 0x80000000))
      (scW scwCpu0 7 5 6) = .ok ([0x80000008], 0, 42) := by
  rfl

/- ============================================================
   C7. CSR instructions and IllegalInstruction.
   Embeds the funct3 = 1..3, 5..7 (csrrw / csrrs / csrrc /
   csrrwi / csrrsi / csrrci) arms of the opcode-0x73 match of
   execute_general (src/cpu.rs 2699-2770). The Csr file
   (cpu/csr.rs) is missing from the tree, but the call sites fix
   its interface: Csr::read returns a u64 and Csr::write returns
   unit (both called in statement position, never with `?`), so
   ANY implementation is a pair of total functions and no
   exception can flow out of it; the embedding therefore takes
   the CSR file as an arbitrary read/write interface and the
   theorems quantify over it. None of the six arms inspects the
   privilege mode or the CSR address's read-only bits.
   ============================================================ -/

/-- Modelled from the spec: the interface of the missing cpu/csr.rs as
cpu.rs consumes it — a total read and a total write over an arbitrary
CSR-file representation σ (WARL masking, aliasing and any other
behavior live inside the implementation and cannot raise). -/
structure CsrIntf (σ : Type) where
  read : σ → Nat → Nat
  write : σ → Nat → Nat → σ

/-- The CSR address of satp (whose writes re-latch paging state). -/
def SATP : Nat := 0x180

/-- The state the Zicsr arms act on: the CSR file, the register file
and the paging state latched by update_paging. -/
structure ZicsrState (σ : Type) where
  csr : σ
  gpr : Gpr
  enablePaging : Bool
  pageTable : Nat

/-- Cpu::update_paging (src/cpu.rs 209-223): re-latch the root page
table PPN (low 44 bits of satp times the page size) and the paging
flag (satp mode field = 8) from the stored satp value; the source's
Csr::read_bits field helper is modelled as the bit slice of the read
value. -/
def updatePaging {σ : Type} (intf : CsrIntf σ) (s : ZicsrState σ) : ZicsrState σ :=
  let satp := intf.read s.csr SATP
  { s with pageTable := satp % 2 ^ 44 * 4096, enablePaging := satp >>> 60 = 8 }

/-- Bitwise complement within 64 bits (Rust `!x` on u64), used by the
csrrc / csrrci arms. -/
def complement64 (v : Nat) : Nat := U64 - 1 - v % U64

/-- The six Zicsr arms of the opcode-0x73 match (src/cpu.rs
2699-2770), dispatched on funct3. Every arm reads the old CSR value,
writes the new one unconditionally, writes rd, and re-latches paging
when the address is satp; none returns an exception. funct3 = 0 is the
system arm (embedded as executeSystemClass above) and is out of this
function's scope, returned as none; funct3 = 4 falls into the match's
IllegalInstruction default. -/
def executeZicsr {σ : Type} (intf : CsrIntf σ) (s : ZicsrState σ) (inst : Nat) :
    Option (Except Exception (ZicsrState σ)) :=
  let csrAddr := (inst >>> 20) &&& 0xfff
  let rd := (inst >>> 7) &&& 0x1f
  let rs1 := (inst >>> 15) &&& 0x1f
  match (inst >>> 12) &&& 7 with
  | 0 => none
  | 1 =>
    let t := intf.read s.csr csrAddr
    let s1 := { s with csr := intf.write s.csr csrAddr (s.gpr.read rs1),
                       gpr := s.gpr.write rd t }
    some (.ok (if csrAddr = SATP then updatePaging intf s1 else s1))
  | 2 =>
    let t := intf.read s.csr csrAddr
    let s1 := { s with csr := intf.write s.csr csrAddr (t ||| s.gpr.read rs1),
                       gpr := s.gpr.write rd t }
    some (.ok (if csrAddr = SATP then updatePaging intf s1 else s1))
  | 3 =>
    let t := intf.read s.csr csrAddr
    let s1 := { s with csr := intf.write s.csr csrAddr (t &&& complement64 (s.gpr.read rs1)),
                       gpr := s.gpr.write rd t }
    some (.ok (if csrAddr = SATP then updatePaging intf s1 else s1))
  | 4 => some (.error (.IllegalInstruction inst))
  | 5 =>
    let s1 := { s with gpr := s.gpr.write rd (intf.read s.csr csrAddr) }
    let s2 := { s1 with csr := intf.write s1.csr csrAddr rs1 }
    some (.ok (if csrAddr = SATP then updatePaging intf s2 else s2))
  | 6 =>
    let t := intf.read s.csr csrAddr
    let s1 := { s with csr := intf.write s.csr csrAddr (t ||| rs1),
                       gpr := s.gpr.write rd t }
    some (.ok (if csrAddr = SATP then updatePaging intf s1 else s1))
  | 7 =>
    let t := intf.read s.csr csrAddr
    let s1 := { s with csr := intf.write s.csr csrAddr (t &&& complement64 rs1),
                       gpr := s.gpr.write rd t }
    some (.ok (if csrAddr = SATP then updatePaging intf s1 else s1))
  | _ => some (.error (.IllegalInstruction inst))

/-- Modelled from the spec: a plain sparse-map CSR file (address →
value), the simplest implementation of the interface, used only to
evaluate the counterexample at a concrete state. -/
def mapCsr : CsrIntf (Nat → Nat) where
  read := fun f a => f a
  write := fun f a v => fun b => if b = a then v else f b

/-- A concrete Zicsr state over the map CSR file: all CSRs zero, x2
holds 0xdead. -/
def zicsrS0 : ZicsrState (Nat → Nat) where
  csr := fun _ => 0
  gpr := fun i => if i = 2 then 0xdead else 0
  enablePaging := false
  pageTable := 0

/-- True exactly when a Zicsr dispatch ran a handler to completion
(returned ok rather than an exception or a non-Zicsr arm). -/
def zicsrOk {σ : Type} (o : Option (Except Exception (ZicsrState σ))) : Bool :=
  match o with
  | some (.ok _) => true
  | _ => false

/-- C7 counterexample: the instruction 0xF14110F3 — csrrw x1, 0xF14,
x2, a WRITE to CSR address 0xF14 (mhartid, top two bits 0b11, a
read-only machine-mode CSR) — executes to completion and raises
nothing; the claim says such a write must raise IllegalInstruction.
The embedding takes no privilege mode at all, because the source arms
never consult it, so the same evaluation also refutes the
low-privilege half of the claim. -/
theorem csr_write_readonly_not_illegal :
    zicsrOk (executeZicsr mapCsr zicsrS0 0xF14110F3) = true := by
  rfl

/-- C7 (amended): the CSR instructions never raise IllegalInstruction,
for EVERY implementation of the CSR file interface and every state:
each of the six arms (funct3 1-3 and 5-7) unconditionally performs its
read-modify-write — with no read-only-address check (top two bits
0b11) and no privilege check — and returns ok. -/
theorem csr_instructions_never_illegal :
    ∀ (σ : Type) (intf : CsrIntf σ) (s : ZicsrState σ) (inst : Nat),
      ((inst >>> 12) &&& 7 = 1 ∨ (inst >>> 12) &&& 7 = 2 ∨ (inst >>> 12) &&& 7 = 3 ∨
       (inst >>> 12) &&& 7 = 5 ∨ (inst >>> 12) &&& 7 = 6 ∨ (inst >>> 12) &&& 7 = 7) →
      ∃ s1, executeZicsr intf s inst = some (.ok s1) := by
  intro σ intf s inst h
  rcases h with h | h | h | h | h | h <;>
    exact ⟨_, by unfold executeZicsr; rw [h]⟩

/-- C7 witness: the amended theorem applied at the map CSR file, the
concrete state and the read-only-CSR write 0xF14110F3 (funct3 = 1),
with the funct3 hypothesis discharged by evaluation. -/
theorem csr_instructions_never_illegal_witness :
    ∃ s1, executeZicsr mapCsr zicsrS0 0xF14110F3 = some (.ok s1) :=
  csr_instructions_never_illegal _ mapCsr zicsrS0 0xF14110F3 (Or.inl (by decide))

end Hemu
